import Mathlib

/-!
Verification of the MCP-Host repository (src/host.py, src/mcp_client.py)
against its natural-language specification.

The Python source is shallowly embedded: JSON values become the inductive
type `JVal`, Python exceptions become the `PyErr` error type of an `Except`
monad, and the stateful pieces (connected clients, the per-server
`MCPClient.call`) are passed explicitly as an environment containing an
oracle function for the remote server responses.
-/

set_option maxHeartbeats 1000000

namespace MCPHost

/-- A JSON value, as manipulated by the Python code (dicts are association
lists in insertion order, mirroring Python's ordered dicts). Numbers are
modelled as integers, which covers every value the host itself constructs. -/
inductive JVal where
  | null
  | bool (b : Bool)
  | num (n : Int)
  | str (s : String)
  | arr (xs : List JVal)
  | obj (kvs : List (String × JVal))

/-- Python exceptions that the embedded code can raise. -/
inductive PyErr where
  | keyError (key : String)
  | typeError (msg : String)
  | attributeError (msg : String)
  | runtimeError (msg : String)
  | jsonDecodeError (msg : String)
deriving DecidableEq, Repr

mutual

/-- Python `==` on JSON values (order-sensitive on dicts, which is all the
host ever needs: it only ever compares scalars). -/
def jBEq : JVal → JVal → Bool
  | .null, .null => true
  | .bool a, .bool b => a == b
  | .num a, .num b => a == b
  | .str a, .str b => a == b
  | .arr as, .arr bs => jBEqList as bs
  | .obj as, .obj bs => jBEqObj as bs
  | _, _ => false

/-- Elementwise `jBEq` on lists. -/
def jBEqList : List JVal → List JVal → Bool
  | [], [] => true
  | a :: as, b :: bs => jBEq a b && jBEqList as bs
  | _, _ => false

/-- Elementwise `jBEq` on association lists. -/
def jBEqObj : List (String × JVal) → List (String × JVal) → Bool
  | [], [] => true
  | (k₁, v₁) :: as, (k₂, v₂) :: bs => k₁ == k₂ && jBEq v₁ v₂ && jBEqObj as bs
  | _, _ => false

end

/-- Python truthiness of a JSON value (`bool(x)`). -/
def truthy : JVal → Bool
  | .null => false
  | .bool b => b
  | .num n => n != 0
  | .str s => s != ""
  | .arr xs => !xs.isEmpty
  | .obj kvs => !kvs.isEmpty

/-- Python `s.startswith(p)`, via the character lists. -/
def strStartsWith (p s : String) : Bool := p.toList.isPrefixOf s.toList

/-- Python `s.endswith(p)`. -/
def strEndsWith (p s : String) : Bool := p.toList.isSuffixOf s.toList

/-- Python `d.get(k, default)` on a value: succeeds on dicts, raises
`AttributeError` otherwise (non-dicts have no `.get`). -/
def pyGetD (v : JVal) (k : String) (d : JVal) : Except PyErr JVal :=
  match v with
  | .obj kvs => .ok ((kvs.lookup k).getD d)
  | _ => .error (.attributeError ("object has no attribute get: " ++ k))

/-- Python subscript `d[k]` on a value: `KeyError` on a dict missing the key,
`TypeError` on non-dicts indexed by a string. -/
def pySubscript (v : JVal) (k : String) : Except PyErr JVal :=
  match v with
  | .obj kvs =>
    match kvs.lookup k with
    | some x => .ok x
    | none => .error (.keyError k)
  | _ => .error (.typeError ("value is not subscriptable by str: " ++ k))

/-- Whether `needle` occurs as a contiguous sublist of `hay`. -/
def listIsInfix (needle hay : List Char) : Bool :=
  match hay with
  | [] => needle.isEmpty
  | _ :: t => needle.isPrefixOf hay || listIsInfix needle t

/-- Python `k in v` for a string key: dict key membership, list element
membership, substring test on strings, `TypeError` otherwise. -/
def pyIn (k : String) (v : JVal) : Except PyErr Bool :=
  match v with
  | .obj kvs => .ok (kvs.lookup k).isSome
  | .arr xs => .ok (xs.any (fun x => jBEq x (.str k)))
  | .str s => .ok (listIsInfix k.toList s.toList)
  | _ => .error (.typeError "argument is not iterable")

/-- Coerce to a Python `str`, raising `TypeError` otherwise (as e.g.
`os.path.join` does on non-string components). -/
def asStr : JVal → Except PyErr String
  | .str s => .ok s
  | _ => .error (.typeError "expected str")

/-- A run of `n` spaces, for JSON indentation. -/
def spacesStr (n : Nat) : String := String.mk (List.replicate n ' ')

/-- JSON string escaping as performed by `json.dumps(..., ensure_ascii=False)`:
quote, backslash and control characters are escaped, everything else is kept. -/
def jsonEscapeChar (c : Char) : String :=
  if c = '"' then "\\\""
  else if c = '\\' then "\\\\"
  else if c = '\n' then "\\n"
  else if c = '\t' then "\\t"
  else if c = '\r' then "\\r"
  else if c.toNat < 32 then
    "\\u00" ++ String.mk [Nat.digitChar (c.toNat / 16), Nat.digitChar (c.toNat % 16)]
  else String.mk [c]

/-- Escape a whole string for a JSON string literal. -/
def jsonEscape (s : String) : String := String.join (s.toList.map jsonEscapeChar)

mutual

/-- Python `json.dumps(x, ensure_ascii=False, indent=2)`, at current indent `ind`:
scalars on one line, non-empty containers across lines with two-space nesting,
empty containers rendered inline. -/
def jsonDumps : Nat → JVal → String
  | _, .null => "null"
  | _, .bool true => "true"
  | _, .bool false => "false"
  | _, .num n => toString n
  | _, .str s => "\"" ++ jsonEscape s ++ "\""
  | _, .arr [] => "[]"
  | ind, .arr (x :: xs) =>
    "[\n"
      ++ String.intercalate ",\n"
        ((jsonDumpsList (ind + 2) (x :: xs)).map (fun t => spacesStr (ind + 2) ++ t))
      ++ "\n" ++ spacesStr ind ++ "]"
  | _, .obj [] => "\x7b\x7d"
  | ind, .obj (p :: ps) =>
    "\x7b\n"
      ++ String.intercalate ",\n"
        ((jsonDumpsObj (ind + 2) (p :: ps)).map (fun t => spacesStr (ind + 2) ++ t))
      ++ "\n" ++ spacesStr ind ++ "\x7d"

/-- Render every element of a JSON array at indent `ind`. -/
def jsonDumpsList : Nat → List JVal → List String
  | _, [] => []
  | ind, v :: vs => jsonDumps ind v :: jsonDumpsList ind vs

/-- Render every `"key": value` pair of a JSON object at indent `ind`. -/
def jsonDumpsObj : Nat → List (String × JVal) → List String
  | _, [] => []
  | ind, (k, v) :: kvs =>
    ("\"" ++ jsonEscape k ++ "\": " ++ jsonDumps ind v) :: jsonDumpsObj ind kvs

end

/-- host.py `_pretty`: `json.dumps(x, ensure_ascii=False, indent=2)`. -/
def _pretty (x : JVal) : String := jsonDumps 0 x

mutual

/-- Python `repr` of a JSON value (what `str` falls back to for containers). -/
def pyRepr : JVal → String
  | .null => "None"
  | .bool true => "True"
  | .bool false => "False"
  | .num n => toString n
  | .str s => "'" ++ s ++ "'"
  | .arr xs => "[" ++ String.intercalate ", " (pyReprList xs) ++ "]"
  | .obj kvs => "\x7b" ++ String.intercalate ", " (pyReprObj kvs) ++ "\x7d"

/-- Apply `pyRepr` to every element of a list. -/
def pyReprList : List JVal → List String
  | [] => []
  | v :: vs => pyRepr v :: pyReprList vs

/-- Render every `'key': value` pair of a dict via `pyRepr`. -/
def pyReprObj : List (String × JVal) → List String
  | [] => []
  | (k, v) :: kvs => ("'" ++ k ++ "': " ++ pyRepr v) :: pyReprObj kvs

end

/-- Python `str(x)`: identity on strings, `repr`-like otherwise. -/
def pyStr : JVal → String
  | .str s => s
  | v => pyRepr v

/-- The list comprehension in host.py `render_tool_result`:
`[p.get("text","") for p in parts if isinstance(p, dict) and p.get("type")=="text"]`. -/
def extractTexts (parts : List JVal) : List JVal :=
  parts.filterMap (fun p =>
    match p with
    | .obj pk =>
      match pk.lookup "type" with
      | some (.str t) => if t = "text" then some ((pk.lookup "text").getD (.str "")) else none
      | _ => none
    | _ => none)

/-- One table cell of `render_tool_result`: `str(r.get(h, ""))` (raises on
a record that is not a dict). -/
def renderCell (r : JVal) (h : String) : Except PyErr String := do
  let x ← pyGetD r h (.str "")
  pure (pyStr x)

/-- One table data row of `render_tool_result`:
`"| " + " | ".join(str(r.get(h, "")) for h in headers) + " |"`. -/
def renderRow (headers : List String) (r : JVal) : Except PyErr String := do
  let cells ← headers.mapM (renderCell r)
  pure ("| " ++ String.intercalate " | " cells ++ " |")

/-- host.py `render_tool_result`: table rendering for a list of records under
`structuredContent.result`, pretty-printed JSON for any other structured
payload, the newline-joined `"text"` entries of `content` otherwise, and a
pretty-print of the whole raw result as a last resort. Rendering is embedded
in `Except` because the Python code can raise (e.g. `r.get` on a non-dict
record, `"\n".join` on non-string texts). -/
def render_tool_result (result : JVal) : Except PyErr String := do
  let sc ← pyGetD result "structuredContent" (.obj [])
  let cond ← if truthy sc then pyIn "result" sc else pure false
  if cond then
    let data ← pySubscript sc "result"
    match data with
    | .arr (d0 :: ds) =>
      match d0 with
      | .obj hk =>
        let headers := hk.map Prod.fst
        let rows ← (JVal.obj hk :: ds).mapM (renderRow headers)
        pure (String.intercalate "\n"
          (("| " ++ String.intercalate " | " headers ++ " |")
            :: ("| " ++ String.intercalate " | " (headers.map fun _ => "---") ++ " |")
            :: rows))
      | _ => pure (_pretty data)
    | _ => pure (_pretty data)
  else
    let parts ← pyGetD result "content" (.arr [])
    match parts with
    | .arr ps =>
      let texts := extractTexts ps
      if texts.isEmpty then pure (_pretty result)
      else do
        let strs ← texts.mapM asStr
        pure (String.intercalate "\n" strs)
    | _ => pure (_pretty result)

/-- Split a character list on `'/'`, keeping empty components
(Python `p.split('/')`). -/
def splitSlash : List Char → List (List Char)
  | [] => [[]]
  | c :: cs =>
    if c = '/' then [] :: splitSlash cs
    else
      match splitSlash cs with
      | [] => [[c]]
      | g :: gs => (c :: g) :: gs

/-- A run of `n` forward slashes. -/
def slashesStr (n : Nat) : String := String.mk (List.replicate n '/')

/-- Python `posixpath.normpath`: collapse duplicate separators, drop `.` components,
resolve `..` against a preceding component where one exists, preserve leading
`..` of relative paths and the POSIX one-or-two leading slashes. -/
def pyNormpath (p : String) : String :=
  if p = "" then "."
  else
    let initialSlashes : Nat :=
      if strStartsWith "//" p ∧ ¬ strStartsWith "///" p then 2
      else if strStartsWith "/" p then 1 else 0
    let comps := (splitSlash p.toList).map String.mk
    let newComps := comps.foldl (fun acc comp =>
      if comp = "" ∨ comp = "." then acc
      else if comp ≠ ".." ∨ (initialSlashes = 0 ∧ acc = []) ∨ acc.getLast? = some ".."
        then acc ++ [comp]
      else acc.dropLast) []
    let path := slashesStr initialSlashes ++ String.intercalate "/" newComps
    if path = "" then "." else path

/-- Python `posixpath.join a b`: `b` if absolute, otherwise `a`, a separator when one
is needed, then `b`. -/
def pyJoin (a b : String) : String :=
  if strStartsWith "/" b then b
  else if a = "" ∨ strEndsWith "/" a then a ++ b
  else a ++ "/" ++ b

/-- host.py `BLOCKLIST_PREFIXES` in `_exec_git_add_files`. -/
def BLOCKLIST_PREFIXES : List String := [".git", "_git", "__pycache__"]

/-- host.py `BLOCKLIST_EXT` in `_exec_git_add_files`. -/
def BLOCKLIST_EXT : List String := [".pyc", ".pyo", ".pyd", ".log"]

/-- The per-path normalization in `_exec_git_add_files`:
`(f or "").replace("\\", "/").lstrip("/")` (for a `str` input `f or ""` is
`f` itself). -/
def gitAddNorm (f : String) : String :=
  String.mk ((f.toList.map fun c => if c = '\\' then '/' else c).dropWhile (fun c => c = '/'))

/-- The skip condition of the `_exec_git_add_files` loop:
`(not rp) or any(rp.startswith(p) ...) or rp.endswith(BLOCKLIST_EXT)`. -/
def gitAddBlocked (rp : String) : Bool :=
  rp = "" || BLOCKLIST_PREFIXES.any (fun p => strStartsWith p rp)
    || BLOCKLIST_EXT.any (fun e => strEndsWith e rp)

/-- The filtering loop of `_exec_git_add_files`, accumulating `safe`. -/
def gitAddSafe (files : List String) : List String :=
  files.foldl (fun safe f =>
    let rp := gitAddNorm f
    if gitAddBlocked rp then safe else safe ++ [rp]) []

/-- The error text returned when filtering leaves no file. -/
def gitAddEmptyMsg : String :=
  "No hay archivos válidos para agregar (se filtraron por reglas de seguridad)."

/-- An error ToolResult as host.py builds them:
`{"content":[{"type":"text","text":msg}],"isError":True}`. -/
def errResult (msg : String) : JVal :=
  .obj [("content", .arr [.obj [("type", .str "text"), ("text", .str msg)]]),
        ("isError", .bool true)]

/-- Whether a result object carries `isError: true`. -/
def jIsError : JVal → Bool
  | .obj kvs =>
    match kvs.lookup "isError" with
    | some (.bool b) => b
    | _ => false
  | _ => false

/-- One forwarded `MCPClient.call`: target server name, tool name, arguments. -/
structure CallReq where
  server : String
  tool : String
  args : JVal

/-- host.py `_exec_fs_write_text`: resolve the relative path against
`WORKSPACE_ROOT` with `os.path.normpath(os.path.join(WS, relative_path))`
and forward `write_file` to the FS server. -/
def _exec_fs_write_text (WS rp : String) (content : JVal) : CallReq :=
  ⟨"FS", "write_file",
    .obj [("path", .str (pyNormpath (pyJoin WS rp))), ("content", content)]⟩

/-- host.py `_exec_fs_read_text`: same path resolution, `read_text_file`. -/
def _exec_fs_read_text (WS rp : String) : CallReq :=
  ⟨"FS", "read_text_file", .obj [("path", .str (pyNormpath (pyJoin WS rp)))]⟩

/-- host.py `_exec_fs_list`: same path resolution, `list_directory`. -/
def _exec_fs_list (WS rp : String) : CallReq :=
  ⟨"FS", "list_directory", .obj [("path", .str (pyNormpath (pyJoin WS rp)))]⟩

/-- host.py `_exec_git_init_here`: `git_init` at `REPO_ROOT`. -/
def _exec_git_init_here (REPO : String) : CallReq :=
  ⟨"Git", "git_init", .obj [("repo_path", .str REPO)]⟩

/-- host.py `_exec_git_add_all`: `git_add` of `["."]` at `REPO_ROOT`. -/
def _exec_git_add_all (REPO : String) : CallReq :=
  ⟨"Git", "git_add", .obj [("repo_path", .str REPO), ("files", .arr [.str "."])]⟩

/-- host.py `_exec_git_commit_msg`: `git_commit` at `REPO_ROOT`. -/
def _exec_git_commit_msg (REPO : String) (message : JVal) : CallReq :=
  ⟨"Git", "git_commit", .obj [("repo_path", .str REPO), ("message", message)]⟩

/-- host.py `_exec_git_status_here`: `git_status` at `REPO_ROOT`. -/
def _exec_git_status_here (REPO : String) : CallReq :=
  ⟨"Git", "git_status", .obj [("repo_path", .str REPO)]⟩

/-- host.py `_exec_git_log_here`: `git_log` at `REPO_ROOT`. -/
def _exec_git_log_here (REPO : String) (maxCount : JVal) : CallReq :=
  ⟨"Git", "git_log", .obj [("repo_path", .str REPO), ("max_count", maxCount)]⟩

/-- host.py `_exec_git_add_files`: filter the path list defensively; an empty
filtered list yields a local error ToolResult (`Sum.inl`, nothing forwarded),
otherwise `git_add` is forwarded with the explicit safe list (`Sum.inr`). -/
def _exec_git_add_files (REPO : String) (files : List String) : JVal ⊕ CallReq :=
  let safe := gitAddSafe files
  if safe = [] then .inl (errResult gitAddEmptyMsg)
  else
    .inr ⟨"Git", "git_add",
      .obj [("repo_path", .str REPO), ("files", .arr (safe.map JVal.str))]⟩

/-- host.py `OPENAI_TO_MCP`: the static map from OpenAI tool names to
SQLScout tool names. -/
def OPENAI_TO_MCP : List (String × String) :=
  [("sql_load", "sql.load"),
   ("sql_explain", "sql.explain"),
   ("sql_diagnose", "sql.diagnose"),
   ("sql_optimize", "sql.optimize"),
   ("sql_apply", "sql.apply"),
   ("sql_optimize_apply", "sql.optimize_apply")]

/-- The router's runtime environment: the two configured roots, the names of
the connected clients, the set of tool names imported from the remote
Supabase catalog, and an oracle standing for `clients[name].call(tool, args)`
(which may itself raise, e.g. on a transport failure). -/
structure Env where
  ws : String
  repo : String
  clients : List String
  remoteNames : List String
  oracle : String → String → JVal → Except PyErr JVal

/-- Python `clients[req.server].call(req.tool, req.args)`: raises `KeyError` when the
server name is not among the connected clients (as Python dict indexing does),
otherwise defers to the oracle. -/
def callClient (env : Env) (req : CallReq) : Except PyErr JVal :=
  if req.server ∈ env.clients then env.oracle req.server req.tool req.args
  else .error (.keyError req.server)

/-- host.py `exec_mcp_generic`: a descriptive error ToolResult when the named
server is not configured, otherwise the call is forwarded verbatim. -/
def exec_mcp_generic (env : Env) (server name : String) (arguments : JVal) :
    Except PyErr JVal :=
  if server ∈ env.clients then env.oracle server name arguments
  else .ok (errResult ("Servidor '" ++ server ++ "' no está configurado."))

/-- host.py `_exec_mcp_sql`: unmapped names yield an error ToolResult, mapped
names are forwarded to the SQLScout client. -/
def _exec_mcp_sql (env : Env) (toolName : String) (args : JVal) :
    Except PyErr JVal :=
  match OPENAI_TO_MCP.lookup toolName with
  | none => .ok (errResult ("Tool '" ++ toolName ++ "' no mapeada a MCP (SQLScout)."))
  | some m => callClient env ⟨"SQLScout", m, args⟩

/-- The argument-decode step of the tool_calls loop: `args = {}` then
`try: args = json.loads(...) except Exception: pass` — a decode failure
leaves the empty dict in place. -/
def argsOf (decoded : Except String JVal) : JVal :=
  match decoded with
  | .ok v => v
  | .error _ => .obj []

/-- Python iteration over the value bound to `files` (a list yields its
elements coerced by `(f or "")` to strings, a string its characters, a dict
its keys; scalars are not iterable). -/
def iterAsStrings : JVal → Except PyErr (List String)
  | .arr fs => fs.mapM (fun f => if truthy f then asStr f else .ok "")
  | .str s => .ok (s.toList.map fun c => String.mk [c])
  | .obj kvs => .ok (kvs.map Prod.fst)
  | _ => .error (.typeError "object is not iterable")

/-- The per-call body of the tool_calls dispatch loop in host.py `chat`
(lines 460-520): decode the model's argument JSON (falling back to the empty
object), then route through the elif chain of wrapper, remote-Supabase,
static-Supabase, `mcp_run` and SQL branches. Branches read required fields
by direct subscript, exactly as the source does, so a missing field raises
`KeyError` out of this function. -/
def dispatch (env : Env) (t_name : String) (decoded : Except String JVal) :
    Except PyErr JVal :=
  let args := argsOf decoded
  if t_name = "fs_write_text" then do
    let rpv ← pySubscript args "relative_path"
    let content ← pySubscript args "content"
    let rp ← asStr rpv
    callClient env (_exec_fs_write_text env.ws rp content)
  else if t_name = "fs_list" then do
    let rpv ← pyGetD args "relative_path" (.str ".")
    let rp ← asStr rpv
    callClient env (_exec_fs_list env.ws rp)
  else if t_name = "git_init_here" then
    callClient env (_exec_git_init_here env.repo)
  else if t_name = "git_add_all" then
    callClient env (_exec_git_add_all env.repo)
  else if t_name = "git_commit_msg" then do
    let message ← pySubscript args "message"
    callClient env (_exec_git_commit_msg env.repo message)
  else if t_name = "git_status_here" then
    callClient env (_exec_git_status_here env.repo)
  else if t_name = "git_log_here" then do
    let mc ← pyGetD args "max_count" (.num 5)
    callClient env (_exec_git_log_here env.repo mc)
  else if t_name = "fs_read_text" then do
    let rpv ← pySubscript args "relative_path"
    let rp ← asStr rpv
    callClient env (_exec_fs_read_text env.ws rp)
  else if t_name = "git_add_files" then do
    let filesv ← pyGetD args "files" (.arr [])
    let files ← iterAsStrings filesv
    match _exec_git_add_files env.repo files with
    | .inl errv => .ok errv
    | .inr req => callClient env req
  else if t_name ∈ env.remoteNames then
    exec_mcp_generic env "Supabase" t_name args
  else if t_name = "supabase_create_user" then
    exec_mcp_generic env "Supabase" "create_user" args
  else if t_name = "supabase_send_magic_link" then
    exec_mcp_generic env "Supabase" "send_magic_link" args
  else if t_name = "supabase_list_policies" then
    exec_mcp_generic env "Supabase" "list_policies" args
  else if t_name = "supabase_set_role" then
    exec_mcp_generic env "Supabase" "set_user_role" args
  else if t_name = "supabase_user_stats" then
    exec_mcp_generic env "Supabase" "get_user_stats" args
  else if t_name = "supabase_bulk_invite" then
    exec_mcp_generic env "Supabase" "bulk_invite_users" args
  else if t_name = "mcp_run" then do
    let sv ← pySubscript args "server"
    let s ← asStr sv
    let nv ← pySubscript args "name"
    let n ← asStr nv
    let a ← pyGetD args "arguments" (.obj [])
    exec_mcp_generic env s n a
  else
    _exec_mcp_sql env t_name args

/-- The tool names tested literally by the elif chain of the dispatch loop,
in source order. -/
def dispatchStaticNames : List String :=
  ["fs_write_text", "fs_list", "git_init_here", "git_add_all",
   "git_commit_msg", "git_status_here", "git_log_here", "fs_read_text",
   "git_add_files", "supabase_create_user", "supabase_send_magic_link",
   "supabase_list_policies", "supabase_set_role", "supabase_user_stats",
   "supabase_bulk_invite", "mcp_run"]

/-- The fixed prefix of the stdio empty-read failure message
(`"Sin respuesta del servidor.\nSTDERR:\n"` in `MCPClient._read_stdio`). -/
def stdioNoResponseMsg : String := "Sin respuesta del servidor.\nSTDERR:\n"

/-- mcp_client.py `MCPClient._read_stdio`: `readline` yields `""` on a closed
stream, which is a fatal `RuntimeError` carrying whatever the child buffered
on stderr; a non-empty line is handed to `json.loads` (the `dec` parameter,
standing for that library call, which may itself raise). -/
def _read_stdio (dec : String → Except PyErr JVal) (line stderrBuf : String) :
    Except PyErr JVal :=
  if line = "" then .error (.runtimeError (stdioNoResponseMsg ++ stderrBuf))
  else dec line

/-- What `requests.post` produced for one HTTP send: either the request
itself failed (`RequestException`), or a response with a status code and a
raw body came back. -/
inductive HttpResp where
  | netFail (msg : String)
  | resp (status : Nat) (body : String)

/-- Requests `Response.raise_for_status` raises `HTTPError` exactly for status codes
in 400..599. -/
def raiseForStatusFails (status : Nat) : Bool := 400 ≤ status && status < 600

/-- mcp_client.py `MCPClient._send_http` after the `requests.post`: a 204
returns the fixed `{"result": "notification sent"}` acknowledgment without
touching the body; `raise_for_status` failures and request failures become
`RuntimeError`s; otherwise the body is decoded as JSON (`dec`, standing for
`response.json()`), a decode failure again becoming a `RuntimeError`. Each
send is a fresh `requests.post` with no cross-call state, so a failure
affects only its own call. -/
def _send_http (dec : String → Except PyErr JVal) (url : String) (r : HttpResp) :
    Except PyErr JVal :=
  match r with
  | .netFail e =>
    .error (.runtimeError ("Error HTTP comunicando con " ++ url ++ ": " ++ e))
  | .resp status body =>
    if status = 204 then .ok (.obj [("result", .str "notification sent")])
    else if raiseForStatusFails status then
      .error (.runtimeError ("Error HTTP comunicando con " ++ url ++ ": "
        ++ toString status ++ " Error for url: " ++ url))
    else
      match dec body with
      | .ok v => .ok v
      | .error _ =>
        .error (.runtimeError "Error decodificando respuesta JSON: Expecting value")

/-- Where the dispatch loop would route a tool name (the name-level shadow of
`dispatch`, branch for branch in source order). -/
inductive Target where
  | direct (server tool : String)
  | passthrough
  | unsupported
deriving DecidableEq, Repr

/-- The server each statically declared `OPENAI_TOOLS` descriptor is bound to
by the dispatch loop, in declaration order (`mcp_run` is the generic
pass-through, bound to no single server, recorded as `*`). -/
def staticCatalog : List (String × String) :=
  [("sql_load", "SQLScout"), ("sql_explain", "SQLScout"),
   ("sql_diagnose", "SQLScout"), ("sql_optimize", "SQLScout"),
   ("sql_apply", "SQLScout"), ("sql_optimize_apply", "SQLScout"),
   ("mcp_run", "*"),
   ("fs_write_text", "FS"), ("fs_list", "FS"),
   ("git_init_here", "Git"), ("git_add_files", "Git"),
   ("git_commit_msg", "Git"), ("git_status_here", "Git"),
   ("git_log_here", "Git"), ("fs_read_text", "FS"),
   ("supabase_create_user", "Supabase"), ("supabase_send_magic_link", "Supabase"),
   ("supabase_list_policies", "Supabase"), ("supabase_set_role", "Supabase"),
   ("supabase_user_stats", "Supabase"), ("supabase_bulk_invite", "Supabase")]

/-- The merged catalog after the startup import: the static `OPENAI_TOOLS`
entries followed by every remote Supabase descriptor appended as-is
(host.py lines 298-310), each remote name bound to the Supabase server. -/
def mergedCatalog (remote : List String) : List (String × String) :=
  staticCatalog ++ remote.map (fun n => (n, "Supabase"))

/-- Name-level resolution of the dispatch loop: which backend a tool name
reaches, mirroring the elif chain branch for branch. -/
def resolveTool (remote : List String) (name : String) : Target :=
  if name = "fs_write_text" then .direct "FS" "write_file"
  else if name = "fs_list" then .direct "FS" "list_directory"
  else if name = "git_init_here" then .direct "Git" "git_init"
  else if name = "git_add_all" then .direct "Git" "git_add"
  else if name = "git_commit_msg" then .direct "Git" "git_commit"
  else if name = "git_status_here" then .direct "Git" "git_status"
  else if name = "git_log_here" then .direct "Git" "git_log"
  else if name = "fs_read_text" then .direct "FS" "read_text_file"
  else if name = "git_add_files" then .direct "Git" "git_add"
  else if name ∈ remote then .direct "Supabase" name
  else if name = "supabase_create_user" then .direct "Supabase" "create_user"
  else if name = "supabase_send_magic_link" then .direct "Supabase" "send_magic_link"
  else if name = "supabase_list_policies" then .direct "Supabase" "list_policies"
  else if name = "supabase_set_role" then .direct "Supabase" "set_user_role"
  else if name = "supabase_user_stats" then .direct "Supabase" "get_user_stats"
  else if name = "supabase_bulk_invite" then .direct "Supabase" "bulk_invite_users"
  else if name = "mcp_run" then .passthrough
  else
    match OPENAI_TO_MCP.lookup name with
    | some m => .direct "SQLScout" m
    | none => .unsupported

/-- The resolution rule the specification asserts (last-registered wins):
the server bound to the LAST catalog entry carrying the name. -/
def lastRegisteredServer (catalog : List (String × String)) (name : String) :
    Option String :=
  catalog.reverse.lookup name

/-- The file/git wrapper names the elif chain tests before consulting the
remote name set. -/
def wrapperBranchNames : List String :=
  ["fs_write_text", "fs_list", "git_init_here", "git_add_all",
   "git_commit_msg", "git_status_here", "git_log_here", "fs_read_text",
   "git_add_files"]

/-- The claim's characterization of the git staging filter, written from the
spec's words: keep exactly the paths that, after normalization to forward
slashes and stripping of leading slashes, are non-empty, start with no
blocked prefix and end with no blocked extension. -/
def specGitAddKeep (f : String) : Option String :=
  let rp := gitAddNorm f
  if rp ≠ "" ∧ (∀ p ∈ BLOCKLIST_PREFIXES, strStartsWith p rp = false)
      ∧ (∀ e ∈ BLOCKLIST_EXT, strEndsWith e rp = false)
    then some rp else none

/-- A concrete environment used by witnesses: the four servers of host.py
connected, no remote Supabase descriptors, and an oracle answering `null`. -/
def sampleEnv : Env :=
  ⟨"/ws", "/repo", ["SQLScout", "FS", "Git", "Supabase"], [],
   fun _ _ _ => .ok .null⟩

theorem except_bind_ok {ε α β : Type} (a : α) (f : α → Except ε β) :
    (Except.ok a : Except ε α) >>= f = f a := rfl

theorem mapM_loop_ok {ε α β : Type} (g : α → Except ε β) (f : α → β) :
    ∀ (l : List α), (∀ a ∈ l, g a = .ok (f a)) →
      ∀ acc : List β, List.mapM.loop g l acc = .ok (acc.reverse ++ l.map f) := by
  intro l
  induction l with
  | nil => intro _ acc; simp [List.mapM.loop]; rfl
  | cons a as ih =>
    intro h acc
    have ha : g a = .ok (f a) := h a (List.mem_cons_self _ _)
    have ih' := ih (fun x hx => h x (List.mem_cons_of_mem _ hx)) (f a :: acc)
    simp only [List.mapM.loop, ha]
    show List.mapM.loop g as (f a :: acc) = _
    rw [ih']
    simp

theorem exceptMapM_ok {ε α β : Type} (g : α → Except ε β) (f : α → β)
    (l : List α) (h : ∀ a ∈ l, g a = .ok (f a)) :
    l.mapM g = .ok (l.map f) := by
  show List.mapM.loop g l [] = _
  rw [mapM_loop_ok g f l h]
  simp

theorem renderCell_obj (r : List (String × JVal)) (h : String) :
    renderCell (.obj r) h = .ok (pyStr ((r.lookup h).getD (.str ""))) := rfl

theorem renderRow_obj (headers : List String) (r : List (String × JVal)) :
    renderRow headers (.obj r)
      = .ok ("| " ++ String.intercalate " | "
          (headers.map fun h => pyStr ((r.lookup h).getD (.str ""))) ++ " |") := by
  unfold renderRow
  rw [exceptMapM_ok (renderCell (.obj r))
    (fun h => pyStr ((r.lookup h).getD (.str ""))) headers (fun a _ => rfl)]
  rfl

theorem renderRows_objs (headers : List String) (recs : List (List (String × JVal))) :
    (recs.map JVal.obj).mapM (renderRow headers)
      = .ok (recs.map fun r =>
          "| " ++ String.intercalate " | "
            (headers.map fun h => pyStr ((r.lookup h).getD (.str ""))) ++ " |") := by
  rw [exceptMapM_ok (renderRow headers)
      (fun v => match v with
        | .obj r => "| " ++ String.intercalate " | "
            (headers.map fun h => pyStr ((r.lookup h).getD (.str ""))) ++ " |"
        | _ => "")]
  · simp only [List.map_map]
    congr 1
  · intro a ha
    simp only [List.mem_map] at ha
    obtain ⟨r, _, rfl⟩ := ha
    exact renderRow_obj headers r

/-- Claim C3 (confirmed). For every result whose `structuredContent.result` is
a non-empty list of records with identical field sets, `render_tool_result`
produces exactly one header row built from the first record's field names,
one separator row, and one data row per record; every data row has one cell
per field, and a missing field renders as the empty cell `str("")`. -/
theorem render_uniform_records_table
    (r0 : List (String × JVal)) (rs : List (List (String × JVal)))
    (hsame : ∀ r ∈ rs, r.map Prod.fst = r0.map Prod.fst) :
    render_tool_result
        (.obj [("structuredContent",
                .obj [("result", .arr ((r0 :: rs).map JVal.obj))])])
      = .ok (String.intercalate "\n"
          (("| " ++ String.intercalate " | " (r0.map Prod.fst) ++ " |")
            :: ("| " ++ String.intercalate " | "
                  ((r0.map Prod.fst).map fun _ => "---") ++ " |")
            :: (r0 :: rs).map (fun r =>
                 "| " ++ String.intercalate " | "
                   ((r0.map Prod.fst).map fun h =>
                     pyStr ((r.lookup h).getD (.str ""))) ++ " |")))
    ∧ ((r0 :: rs).map (fun r =>
         "| " ++ String.intercalate " | "
           ((r0.map Prod.fst).map fun h =>
             pyStr ((r.lookup h).getD (.str ""))) ++ " |")).length
        = (r0 :: rs).length
    ∧ ∀ r ∈ r0 :: rs,
        ((r0.map Prod.fst).map fun h =>
          pyStr ((r.lookup h).getD (.str ""))).length = (r0.map Prod.fst).length := by
  refine ⟨?_, by simp, by intro r _; simp⟩
  have hrows := renderRows_objs (r0.map Prod.fst) (r0 :: rs)
  simp only [List.map_cons] at hrows
  show ((JVal.obj r0 :: rs.map JVal.obj).mapM (renderRow (r0.map Prod.fst))).bind
      (fun rows => pure (String.intercalate "\n"
        (("| " ++ String.intercalate " | " (r0.map Prod.fst) ++ " |")
          :: ("| " ++ String.intercalate " | "
                ((r0.map Prod.fst).map fun _ => "---") ++ " |")
          :: rows))) = _
  rw [hrows]
  rfl

/-- Witness for C3 at Scenario C's payload
`[{"a":1,"b":2},{"a":3,"b":4}]`. -/
theorem render_uniform_records_table_witness :
    render_tool_result (.obj [("structuredContent", .obj [("result",
        .arr [.obj [("a", .num 1), ("b", .num 2)],
              .obj [("a", .num 3), ("b", .num 4)]])])])
      = .ok "| a | b |\n| --- | --- |\n| 1 | 2 |\n| 3 | 4 |" := by
  have h := (render_uniform_records_table [("a", .num 1), ("b", .num 2)]
      [[("a", .num 3), ("b", .num 4)]] (by decide)).1
  exact h

theorem lookup_some_not_isEmpty {α : Type} {l : List (String × α)} {k : String} {v : α}
    (h : l.lookup k = some v) : l.isEmpty = false := by
  cases l with
  | nil => simp [List.lookup] at h
  | cons a as => rfl

theorem mapM_asStr_strs (texts : List String) :
    (texts.map JVal.str).mapM asStr = .ok texts := by
  rw [exceptMapM_ok asStr (fun v => match v with | .str s => s | _ => "")
      (texts.map JVal.str) ?h]
  · congr 1
    rw [List.map_map]
    conv_rhs => rw [← List.map_id texts]
    apply List.map_congr_left
    intro a _
    rfl
  case h =>
    intro a ha
    simp only [List.mem_map] at ha
    obtain ⟨s, _, rfl⟩ := ha
    rfl

theorem scAbsentCase (kvs skvs : List (String × JVal))
    (hsc : kvs.lookup "structuredContent" = none ∨
      (kvs.lookup "structuredContent" = some (.obj skvs) ∧ skvs.lookup "result" = none)) :
    render_tool_result (.obj kvs)
      = (do
          let parts ← pyGetD (.obj kvs) "content" (.arr [])
          match parts with
          | .arr ps =>
            let texts := extractTexts ps
            if texts.isEmpty then pure (_pretty (.obj kvs))
            else do
              let strs ← texts.mapM asStr
              pure (String.intercalate "\n" strs)
          | _ => pure (_pretty (.obj kvs)) : Except PyErr String) := by
  rcases hsc with h | ⟨h, hr⟩
  · simp only [render_tool_result, pyGetD, h, Option.getD_none, except_bind_ok]
    rfl
  · simp only [render_tool_result, pyGetD, h, Option.getD_some, except_bind_ok]
    by_cases he : skvs.isEmpty
    · simp [truthy, he]
    · simp only [truthy, he, Bool.not_false, if_true, pyIn, hr,
        Option.isSome_none, except_bind_ok, if_false]
      rfl



/-- Claim C10 (confirmed). Renderer fallback edges: an empty
`structuredContent.result` list, or one whose first element is not a mapping,
is pretty-printed as indented JSON (never a table); with `structuredContent`
absent or lacking `result`, the renderer joins the `content` entries of type
`"text"` with newlines when any exist, and otherwise pretty-prints the whole
raw result object. -/
theorem render_fallback_edges
    (kvs skvs : List (String × JVal)) (d0 : JVal) (ds parts : List JVal)
    (texts : List String) :
    (kvs.lookup "structuredContent" = some (.obj skvs) →
      skvs.lookup "result" = some (.arr []) →
      render_tool_result (.obj kvs) = .ok (_pretty (.arr [])))
    ∧ (kvs.lookup "structuredContent" = some (.obj skvs) →
      skvs.lookup "result" = some (.arr (d0 :: ds)) →
      (∀ kv, d0 ≠ .obj kv) →
      render_tool_result (.obj kvs) = .ok (_pretty (.arr (d0 :: ds))))
    ∧ ((kvs.lookup "structuredContent" = none ∨
        (kvs.lookup "structuredContent" = some (.obj skvs) ∧
          skvs.lookup "result" = none)) →
      kvs.lookup "content" = some (.arr parts) →
      extractTexts parts = texts.map JVal.str →
      texts ≠ [] →
      render_tool_result (.obj kvs) = .ok (String.intercalate "\n" texts))
    ∧ ((kvs.lookup "structuredContent" = none ∨
        (kvs.lookup "structuredContent" = some (.obj skvs) ∧
          skvs.lookup "result" = none)) →
      (kvs.lookup "content" = none ∨
        (kvs.lookup "content" = some (.arr parts) ∧ extractTexts parts = [])) →
      render_tool_result (.obj kvs) = .ok (_pretty (.obj kvs))) := by
  refine ⟨?_, ?_, ?_, ?_⟩
  · intro h1 h2
    have he := lookup_some_not_isEmpty h2
    simp only [render_tool_result, pyGetD, h1, Option.getD_some, except_bind_ok,
      truthy, he, Bool.not_false, if_true, pyIn, h2, Option.isSome_some,
      pySubscript]
    rfl
  · intro h1 h2 hd
    have he := lookup_some_not_isEmpty h2
    simp only [render_tool_result, pyGetD, h1, Option.getD_some, except_bind_ok,
      truthy, he, Bool.not_false, if_true, pyIn, h2, Option.isSome_some,
      pySubscript]
    cases d0 with
    | obj kv => exact absurd rfl (hd kv)
    | null => rfl
    | bool b => rfl
    | num n => rfl
    | str s => rfl
    | arr xs => rfl
  · intro hsc hc htex hne
    rw [scAbsentCase kvs skvs hsc]
    have hmap : (texts.map JVal.str).isEmpty = false := by
      cases texts with
      | nil => exact absurd rfl hne
      | cons t ts => rfl
    simp only [pyGetD, hc, Option.getD_some, except_bind_ok, htex, hmap,
      Bool.false_eq_true, if_false, mapM_asStr_strs, Bool.not_false]
    rfl
  · intro hsc hc
    rw [scAbsentCase kvs skvs hsc]
    rcases hc with h | ⟨h, hex⟩
    · simp only [pyGetD, h, Option.getD_none, except_bind_ok]
      rfl
    · simp only [pyGetD, h, Option.getD_some, except_bind_ok, hex,
        List.isEmpty_nil, if_true]
      rfl



/-- Witness for C10: the empty-list edge and the text-join edge at concrete
payloads. -/
theorem render_fallback_edges_witness :
    render_tool_result (.obj [("structuredContent", .obj [("result", .arr [])])])
      = .ok "[]"
    ∧ render_tool_result (.obj [("content",
        .arr [.obj [("type", .str "text"), ("text", .str "hola")],
              .obj [("type", .str "image")],
              .obj [("type", .str "text"), ("text", .str "mundo")]])])
      = .ok "hola\nmundo" := by
  constructor
  · exact (render_fallback_edges [("structuredContent", .obj [("result", .arr [])])]
        [("result", .arr [])] .null [] [] []).1 rfl rfl
  · exact (render_fallback_edges
        [("content", .arr [.obj [("type", .str "text"), ("text", .str "hola")],
              .obj [("type", .str "image")],
              .obj [("type", .str "text"), ("text", .str "mundo")]])]
        [] .null []
        [.obj [("type", .str "text"), ("text", .str "hola")],
         .obj [("type", .str "image")],
         .obj [("type", .str "text"), ("text", .str "mundo")]]
        ["hola", "mundo"]).2.2.1 (Or.inl rfl) rfl rfl (by decide)

/-- The source's skip condition and the claim's keep condition are
complementary. -/
theorem gitAddKeep_agree (f : String) :
    specGitAddKeep f
      = if gitAddBlocked (gitAddNorm f) then none else some (gitAddNorm f) := by
  by_cases hb : gitAddBlocked (gitAddNorm f) = true
  · rw [if_pos hb]
    unfold specGitAddKeep
    rw [if_neg]
    unfold gitAddBlocked at hb
    simp only [Bool.or_eq_true, List.any_eq_true, decide_eq_true_eq] at hb
    rintro ⟨h0, hp, he⟩
    rcases hb with (h | ⟨p, hpm, hps⟩) | ⟨e, hem, hes⟩
    · exact h0 h
    · rw [hp p hpm] at hps; cases hps
    · rw [he e hem] at hes; cases hes
  · rw [if_neg hb]
    unfold specGitAddKeep
    rw [if_pos]
    unfold gitAddBlocked at hb
    simp only [Bool.or_eq_true, List.any_eq_true, decide_eq_true_eq] at hb
    push_neg at hb
    obtain ⟨⟨h0, hp⟩, he⟩ := hb
    exact ⟨h0, fun p hpm => Bool.eq_false_iff.mpr (hp p hpm),
           fun e hem => Bool.eq_false_iff.mpr (he e hem)⟩

theorem gitAddSafe_loop (acc : List String) :
    ∀ files : List String,
      files.foldl (fun safe f =>
        let rp := gitAddNorm f
        if gitAddBlocked rp then safe else safe ++ [rp]) acc
      = acc ++ files.filterMap specGitAddKeep := by
  intro files
  induction files generalizing acc with
  | nil => simp
  | cons f fs ih =>
    simp only [List.foldl_cons, List.filterMap_cons, gitAddKeep_agree f]
    by_cases hb : gitAddBlocked (gitAddNorm f) = true
    · simp only [hb, if_true, ih]
    · simp only [Bool.eq_false_iff.mpr hb, ih, List.append_assoc,
        List.singleton_append]
      simp



/-- Claim C2 (confirmed). The forwarded list is exactly the claim's filter
(normalized paths that are non-empty, unblocked by prefix and extension, in
original order); an emptied list yields a local isError ToolResult with
nothing forwarded, a non-empty one a `git_add` call carrying precisely the
safe list. -/
theorem git_add_files_filter (REPO : String) (files : List String) :
    gitAddSafe files = files.filterMap specGitAddKeep
    ∧ (files.filterMap specGitAddKeep = [] →
        _exec_git_add_files REPO files = .inl (errResult gitAddEmptyMsg)
        ∧ jIsError (errResult gitAddEmptyMsg) = true)
    ∧ (files.filterMap specGitAddKeep ≠ [] →
        _exec_git_add_files REPO files
          = .inr ⟨"Git", "git_add",
              .obj [("repo_path", .str REPO),
                    ("files", .arr ((files.filterMap specGitAddKeep).map JVal.str))]⟩) := by
  have hsafe : gitAddSafe files = files.filterMap specGitAddKeep := by
    unfold gitAddSafe
    rw [gitAddSafe_loop []]
    simp
  refine ⟨hsafe, ?_, ?_⟩
  · intro hempty
    refine ⟨?_, rfl⟩
    unfold _exec_git_add_files
    rw [hsafe, hempty]
    rfl
  · intro hne
    unfold _exec_git_add_files
    rw [hsafe, if_neg hne]

/-- Witness for C2 at the spec's own example list. -/
theorem git_add_files_filter_witness :
    _exec_git_add_files "repo" ["README.md", ".git/config", "build/app.pyc"]
      = .inr ⟨"Git", "git_add",
          .obj [("repo_path", .str "repo"),
                ("files", .arr [.str "README.md"])]⟩ := by
  have h := (git_add_files_filter "repo"
      ["README.md", ".git/config", "build/app.pyc"]).2.2 (by decide)
  rw [show (["README.md", ".git/config", "build/app.pyc"].filterMap specGitAddKeep)
      = ["README.md"] from by decide] at h
  exact h

/-- Claim C1 counterexample. The claim asserts the router never raises out
of the per-call boundary; but `fs_write_text` with the well-formed argument
object `{}` reaches `args["relative_path"]` and raises KeyError out of the
dispatch. -/
theorem dispatch_raises_on_missing_field :
    dispatch sampleEnv "fs_write_text" (.ok (.obj []))
      = .error (.keyError "relative_path") := rfl

/-- Claim C4 counterexample. The claim asserts a malformed argument payload
is recovered by executing the call with an empty argument object; for
`fs_write_text` with an undecodable arguments string, the empty object is
substituted but the call is not executed: `args["relative_path"]` raises
KeyError out of the dispatch instead. -/
theorem dispatch_invalid_json_raises :
    dispatch sampleEnv "fs_write_text" (.error "Expecting value: line 1 column 1 (char 0)")
      = .error (.keyError "relative_path") := rfl

/-- Claim C1 as amended (see counterexample): a tool name matching no
wrapper branch, no remote descriptor, and no static mapping yields an
`isError` ToolResult stating the tool is unsupported, without consulting any
client and without raising; totality does not extend to wrapper branches,
whose direct subscripts of required argument fields can raise KeyError. -/
theorem dispatch_unknown_name_error (env : Env) (t_name : String)
    (decoded : Except String JVal)
    (hstatic : t_name ∉ dispatchStaticNames)
    (hremote : t_name ∉ env.remoteNames)
    (hsql : OPENAI_TO_MCP.lookup t_name = none) :
    dispatch env t_name decoded
      = .ok (errResult ("Tool '" ++ t_name ++ "' no mapeada a MCP (SQLScout)."))
    ∧ jIsError (errResult ("Tool '" ++ t_name ++ "' no mapeada a MCP (SQLScout)."))
        = true := by
  refine ⟨?_, rfl⟩
  simp only [dispatchStaticNames, List.mem_cons, List.not_mem_nil, or_false, not_or] at hstatic
  obtain ⟨h1, h2, h3, h4, h5, h6, h7, h8, h9, h10, h11, h12, h13, h14, h15, h16⟩ := hstatic
  simp only [dispatch, h1, h2, h3, h4, h5, h6, h7, h8, h9, h10, h11, h12, h13,
    h14, h15, h16, hremote, if_false, _exec_mcp_sql, hsql]

/-- Witness for the amended C1 at a concrete unknown name. -/
theorem dispatch_unknown_name_error_witness :
    dispatch sampleEnv "made_up_tool" (.ok (.obj []))
      = .ok (errResult ("Tool '" ++ "made_up_tool" ++ "' no mapeada a MCP (SQLScout).")) := by
  exact (dispatch_unknown_name_error sampleEnv "made_up_tool" (.ok (.obj []))
    (by decide) (by decide) (by decide)).1

/-- Claim C4 as amended (see counterexample): an invalid-JSON arguments
string is caught at the decode site and replaced by the empty argument
object, and a branch that reads its fields with defaulted lookups (here
`fs_list`) then executes with its defaults; branches that subscript required
fields directly are not covered and raise KeyError. -/
theorem argument_decode_recovery (env : Env) (e : String)
    (hFS : "FS" ∈ env.clients) :
    argsOf (.error e) = .obj []
    ∧ dispatch env "fs_list" (.error e)
        = env.oracle "FS" "list_directory"
            (.obj [("path", .str (pyNormpath (pyJoin env.ws ".")))]) := by
  refine ⟨rfl, ?_⟩
  show callClient env (_exec_fs_list env.ws ".") = _
  simp [callClient, _exec_fs_list, hFS]

/-- Witness for the amended C4 at a concrete decode failure. -/
theorem argument_decode_recovery_witness :
    argsOf (.error "Expecting value") = .obj []
    ∧ dispatch sampleEnv "fs_list" (.error "Expecting value")
        = sampleEnv.oracle "FS" "list_directory"
            (.obj [("path", .str (pyNormpath (pyJoin sampleEnv.ws ".")))]) :=
  argument_decode_recovery sampleEnv "Expecting value" (by decide)



/-- Claim C5 (confirmed). A generic pass-through call naming a server that
is not connected returns an `isError` ToolResult whose text contains the
server's name, as a fixed value not involving any client call; a connected
server receives the tool name and arguments verbatim. The third conjunct
ties the `mcp_run` dispatch branch to `exec_mcp_generic`. -/
theorem mcp_run_routing (env : Env) (server name : String) (arguments : JVal) :
    (server ∉ env.clients →
      exec_mcp_generic env server name arguments
        = .ok (errResult ("Servidor '" ++ server ++ "' no está configurado."))
      ∧ jIsError (errResult ("Servidor '" ++ server ++ "' no está configurado."))
          = true
      ∧ ∃ pre post,
          "Servidor '" ++ server ++ "' no está configurado." = pre ++ server ++ post)
    ∧ (server ∈ env.clients →
      exec_mcp_generic env server name arguments = env.oracle server name arguments)
    ∧ ("mcp_run" ∉ env.remoteNames →
      dispatch env "mcp_run"
          (.ok (.obj [("server", .str server), ("name", .str name),
                      ("arguments", arguments)]))
        = exec_mcp_generic env server name arguments) := by
  refine ⟨?_, ?_, ?_⟩
  · intro h
    exact ⟨by simp [exec_mcp_generic, h], rfl,
      "Servidor '", "' no está configurado.", rfl⟩
  · intro h
    simp [exec_mcp_generic, h]
  · intro hm
    show (if "mcp_run" ∈ env.remoteNames then
        exec_mcp_generic env "Supabase" "mcp_run" _ else _) = _
    rw [if_neg hm]
    rfl

/-- Witness for C5: an unconnected server name and a connected one. -/
theorem mcp_run_routing_witness :
    exec_mcp_generic sampleEnv "Ghost" "toolx" .null
      = .ok (errResult ("Servidor '" ++ "Ghost" ++ "' no está configurado."))
    ∧ exec_mcp_generic sampleEnv "FS" "toolx" .null
      = sampleEnv.oracle "FS" "toolx" .null := by
  exact ⟨((mcp_run_routing sampleEnv "Ghost" "toolx" .null).1 (by decide)).1,
         (mcp_run_routing sampleEnv "FS" "toolx" .null).2.1 (by decide)⟩

/-- Claim C6 counterexample. Importing a remote tool named `fs_list` puts
two entries with the same name bound to different servers into the merged
catalog, and resolution uses the EARLIER static wrapper registration, not the
later remote one, contradicting last-registered-wins. -/
theorem catalog_collision_counterexample :
    ("fs_list", "FS") ∈ mergedCatalog ["fs_list"]
    ∧ ("fs_list", "Supabase") ∈ mergedCatalog ["fs_list"]
    ∧ ("FS" : String) ≠ "Supabase"
    ∧ lastRegisteredServer (mergedCatalog ["fs_list"]) "fs_list" = some "Supabase"
    ∧ resolveTool ["fs_list"] "fs_list" = .direct "FS" "list_directory"
    ∧ resolveTool ["fs_list"] "fs_list" ≠ .direct "Supabase" "fs_list" := by
  refine ⟨by decide, by decide, by decide, by decide, rfl, by decide⟩

/-- Claim C6 as amended (see counterexample): the merged catalog can hold
duplicate names bound to different servers, and resolution follows the
dispatcher's fixed branch order — a static file/git wrapper name resolves
identically whatever the remote set contains (earlier registration wins),
while a remote name matching no wrapper resolves to the remote server,
shadowing the later static Supabase/mcp_run/SQL registrations. -/
theorem catalog_resolution_branch_order (remote : List String) (name : String) :
    (name ∈ wrapperBranchNames → resolveTool remote name = resolveTool [] name)
    ∧ (name ∉ wrapperBranchNames → name ∈ remote →
        resolveTool remote name = .direct "Supabase" name) := by
  constructor
  · intro h
    simp only [wrapperBranchNames, List.mem_cons, List.not_mem_nil, or_false] at h
    rcases h with h | h | h | h | h | h | h | h | h <;> subst h <;> rfl
  · intro hn hm
    simp only [wrapperBranchNames, List.mem_cons, List.not_mem_nil, or_false,
      not_or] at hn
    obtain ⟨h1, h2, h3, h4, h5, h6, h7, h8, h9⟩ := hn
    simp only [resolveTool, h1, h2, h3, h4, h5, h6, h7, h8, h9, if_false, hm,
      if_true]

/-- Witness for the amended C6 at concrete collisions. -/
theorem catalog_resolution_branch_order_witness :
    resolveTool ["fs_list"] "fs_list" = resolveTool [] "fs_list"
    ∧ resolveTool ["create_user"] "create_user" = .direct "Supabase" "create_user" := by
  exact ⟨(catalog_resolution_branch_order ["fs_list"] "fs_list").1 (by decide),
         (catalog_resolution_branch_order ["create_user"] "create_user").2
           (by decide) (by decide)⟩

/-- Claim C7 (confirmed). Every relative-path file wrapper forwards
`normpath(join(WORKSPACE_ROOT, relative_path))` to the FS server and every
repository wrapper forwards `repo_path = REPO_ROOT`; resolution applies only
normalization — an absolute `relative_path` replaces the root entirely and a
parent-directory path may resolve outside the configured root, as the
concrete escapes show. -/
theorem wrapper_path_resolution (WS REPO rp : String) (content mc msg : JVal) :
    _exec_fs_write_text WS rp content
        = ⟨"FS", "write_file",
            .obj [("path", .str (pyNormpath (pyJoin WS rp))), ("content", content)]⟩
    ∧ _exec_fs_read_text WS rp
        = ⟨"FS", "read_text_file", .obj [("path", .str (pyNormpath (pyJoin WS rp)))]⟩
    ∧ _exec_fs_list WS rp
        = ⟨"FS", "list_directory", .obj [("path", .str (pyNormpath (pyJoin WS rp)))]⟩
    ∧ _exec_git_init_here REPO = ⟨"Git", "git_init", .obj [("repo_path", .str REPO)]⟩
    ∧ _exec_git_commit_msg REPO msg
        = ⟨"Git", "git_commit", .obj [("repo_path", .str REPO), ("message", msg)]⟩
    ∧ _exec_git_status_here REPO = ⟨"Git", "git_status", .obj [("repo_path", .str REPO)]⟩
    ∧ _exec_git_log_here REPO mc
        = ⟨"Git", "git_log", .obj [("repo_path", .str REPO), ("max_count", mc)]⟩
    ∧ _exec_git_add_all REPO
        = ⟨"Git", "git_add", .obj [("repo_path", .str REPO), ("files", .arr [.str "."])]⟩
    ∧ (strStartsWith "/" rp = true → pyJoin WS rp = rp)
    ∧ pyNormpath (pyJoin "/ws" "../secret") = "/secret"
    ∧ strStartsWith "/ws" (pyNormpath (pyJoin "/ws" "../secret")) = false
    ∧ pyNormpath (pyJoin "/ws" "/etc/passwd") = "/etc/passwd" := by
  refine ⟨rfl, rfl, rfl, rfl, rfl, rfl, rfl, rfl, ?_, by decide, by decide, by decide⟩
  intro h
  simp [pyJoin, h]

/-- Witness for C7: an absolute path is forwarded as-is. -/
theorem wrapper_path_resolution_witness :
    pyJoin "/ws2" "/abs/etc" = "/abs/etc"
    ∧ _exec_fs_read_text "/ws2" "/abs/etc"
        = ⟨"FS", "read_text_file",
            .obj [("path", .str (pyNormpath (pyJoin "/ws2" "/abs/etc")))]⟩ := by
  have h := wrapper_path_resolution "/ws2" "/repo" "/abs/etc" .null .null .null
  exact ⟨h.2.2.2.2.2.2.2.2.1 (by decide), h.2.1⟩



/-- Claim C8 (confirmed). An empty stdio read raises a hard RuntimeError
whose message ends with the buffered stderr content; a non-empty line is
handed to the JSON decoder and its result returned. -/
theorem read_stdio_empty_fatal (dec : String → Except PyErr JVal)
    (line err : String) :
    (line = "" →
      _read_stdio dec line err
          = .error (.runtimeError (stdioNoResponseMsg ++ err))
      ∧ ∃ pre, stdioNoResponseMsg ++ err = pre ++ err)
    ∧ (line ≠ "" → _read_stdio dec line err = dec line) := by
  constructor
  · intro h
    exact ⟨by simp [_read_stdio, h], stdioNoResponseMsg, rfl⟩
  · intro h
    simp [_read_stdio, h]

/-- Witness for C8 at a closed stream and at a concrete line. -/
theorem read_stdio_empty_fatal_witness :
    _read_stdio (fun _ => .ok .null) "" "boom"
      = .error (.runtimeError (stdioNoResponseMsg ++ "boom"))
    ∧ _read_stdio (fun _ => .ok .null) "\x7b\x7d\n" "boom" = .ok .null := by
  exact ⟨((read_stdio_empty_fatal (fun _ => .ok .null) "" "boom").1 rfl).1,
    (read_stdio_empty_fatal (fun _ => .ok .null) "\x7b\x7d\n" "boom").2 (by decide)⟩

/-- Claim C9 counterexample. A 304 response (not a 2xx status) with a
decodable body is returned as success: `raise_for_status` only raises for
400..599, so "any non-2xx status raises a failure" fails at 304. -/
theorem send_http_304_counterexample :
    _send_http (fun _ => .ok (.obj [("ok", .bool true)])) "http://srv/mcp"
        (.resp 304 "x")
      = .ok (.obj [("ok", .bool true)])
    ∧ ¬ (200 ≤ 304 ∧ 304 < 300)
    ∧ (304 : Nat) ≠ 204 := by
  exact ⟨rfl, by omega, by omega⟩

/-- Claim C9 as amended (see counterexample): a 204 returns the fixed
acknowledgment without attempting to decode any body (for every decoder and
body); a network failure, a 400..599 status, or an undecodable body on the
remaining statuses raises a failure for that call; any other status with a
decodable body returns the decoded value. `_send_http` carries no cross-call
state, so a failure affects only its own call. -/
theorem send_http_spec (dec : String → Except PyErr JVal)
    (url body e : String) (status : Nat) (v : JVal) :
    (∀ (dec' : String → Except PyErr JVal) (body' : String),
      _send_http dec' url (.resp 204 body')
        = .ok (.obj [("result", .str "notification sent")]))
    ∧ _send_http dec url (.netFail e)
        = .error (.runtimeError ("Error HTTP comunicando con " ++ url ++ ": " ++ e))
    ∧ (400 ≤ status → status < 600 →
        ∃ m, _send_http dec url (.resp status body) = .error (.runtimeError m))
    ∧ (status ≠ 204 → raiseForStatusFails status = false → dec body = .ok v →
        _send_http dec url (.resp status body) = .ok v)
    ∧ (status ≠ 204 → raiseForStatusFails status = false →
        (∃ er, dec body = .error er) →
        ∃ m, _send_http dec url (.resp status body) = .error (.runtimeError m)) := by
  refine ⟨fun dec' body' => rfl, rfl, ?_, ?_, ?_⟩
  · intro h4 h6
    have h204 : status ≠ 204 := by omega
    have hrs : raiseForStatusFails status = true := by
      simp [raiseForStatusFails]
      omega
    refine ⟨"Error HTTP comunicando con " ++ url ++ ": "
        ++ toString status ++ " Error for url: " ++ url, ?_⟩
    simp [_send_http, h204, hrs]
  · intro h204 hrs hdec
    simp [_send_http, h204, hrs, hdec]
  · intro h204 hrs hdec
    obtain ⟨er, her⟩ := hdec
    refine ⟨"Error decodificando respuesta JSON: Expecting value", ?_⟩
    simp [_send_http, h204, hrs, her]

/-- Witness for the amended C9: 204 acknowledgment, 500 failure, 200 pass.
-/
theorem send_http_spec_witness :
    _send_http (fun _ => .error (.jsonDecodeError "x")) "http://s" (.resp 204 "ignored")
      = .ok (.obj [("result", .str "notification sent")])
    ∧ (∃ m, _send_http (fun _ => .ok .null) "http://s" (.resp 500 "b")
        = .error (.runtimeError m))
    ∧ _send_http (fun _ => .ok (.num 7)) "http://s" (.resp 200 "7") = .ok (.num 7) := by
  refine ⟨?_, ?_, ?_⟩
  · exact (send_http_spec (fun _ => .error (.jsonDecodeError "x")) "http://s" "b" "e"
      500 .null).1 (fun _ => .error (.jsonDecodeError "x")) "ignored"
  · exact (send_http_spec (fun _ => .ok .null) "http://s" "b" "e" 500 .null).2.2.1
      (by omega) (by omega)
  · exact (send_http_spec (fun _ => .ok (.num 7)) "http://s" "7" "e" 200
      (.num 7)).2.2.2.1 (by omega) (by decide) rfl

end MCPHost
